import Mathlib

/-!
Verification of the optimistic todo-list reconciliation core and its REST
backend, shallowly embedded from the repository's TypeScript sources.

The embedding covers:
* the `Todo` record (shared schema in `packages/api`),
* the `useOptimistic` reducer and the dispatch sequences of `addTodo`,
  `toggleTodo`, `deleteTodo` (frontend `Todos` component),
* the `useState`-based `TodosContainer` variants (optimistic map / splice),
* the client fetch wrappers (`api/todos/index.ts`),
* the backend routes and the Postgres-backed `todoService`
  (`routes/todos.ts`, `services/todos/todo-plugin.ts`), with the database
  table modelled as a list of rows.
-/

/-- The Todo record of the shared schema (`TodoSchema` in `packages/api`).
`Date` timestamps are modelled as natural numbers (milliseconds). -/
structure Todo where
  id : String
  text : String
  completed : Bool
  createdAt : Nat
  updatedAt : Nat
deriving DecidableEq

/-- The tagged union of optimistic actions dispatched to the `useOptimistic`
reducer (`TodoAction` in the `Todos` component). -/
inductive TodoAction where
  | add (todo : Todo)
  | add_completed (temp : Todo) (todo : Todo)
  | update (todo : Todo)
  | delete (todo : Todo)
  | delete_error (index : Nat) (todo : Todo)
deriving DecidableEq

/-- The `useOptimistic` reducer of the `Todos` component, case by case:
`ADD` appends, `ADD_COMPLETED` maps the temp id to the canonical record,
`UPDATE` maps the matching id to the action's record, `DELETE` filters the
id out, `DELETE_ERROR` maps the element at the captured index back to the
saved record. -/
def optimisticReducer (state : List Todo) (action : TodoAction) : List Todo :=
  match action with
  | .add todo => state ++ [todo]
  | .add_completed temp todo => state.map (fun t => if t.id ≠ temp.id then t else todo)
  | .update todo => state.map (fun t => if t.id = todo.id then todo else t)
  | .delete todo => state.filter (fun t => t.id != todo.id)
  | .delete_error index todo => state.mapIdx (fun i t => if i = index then todo else t)

/-- The visible collection: the ordered pending-action log folded over the
baseline with the `useOptimistic` reducer. -/
def fold (baseline : List Todo) (actions : List TodoAction) : List Todo :=
  actions.foldl optimisticReducer baseline

/-- Model of the JavaScript built-in `String.prototype.trim`: strips leading
and trailing whitespace. -/
def jsTrim (s : String) : String :=
  ⟨((s.data.dropWhile Char.isWhitespace).reverse.dropWhile Char.isWhitespace).reverse⟩

/-- The temporary record fabricated by `addTodo`: id `temp-${Date.now()}`,
trimmed text, `completed: false`, local timestamps. -/
def mkTempTodo (now : Nat) (text : String) : Todo :=
  { id := "temp-" ++ toString now
    text := jsTrim text
    completed := false
    createdAt := now
    updatedAt := now }

/-- The optimistic update of `TodosContainer.toggleTodo`:
`prev.map(t => t.id === id ? { ...t, completed: !t.completed } : t)` —
a merge of the single field `completed` into the matching record. -/
def toggleOptimistic (id : String) (state : List Todo) : List Todo :=
  state.map (fun t => if t.id = id then { t with completed := !t.completed } else t)

/-- The rollback of `TodosContainer.deleteTodo`:
`newTodos.splice(todoIndex, 0, todo)` — re-inserts the captured record at
its captured index. -/
def spliceRestore (state : List Todo) (index : Nat) (todo : Todo) : List Todo :=
  state.insertIdx index todo

/-- `C3` — Fold purity: the reducer fold producing the visible collection is
a pure deterministic function of the baseline and the ordered action log —
running it twice yields identical output, and it processes the log strictly
left to right (folding a concatenated log equals folding the second part
over the result of the first). -/
theorem fold_pure (baseline : List Todo) (actions rest : List TodoAction) :
    fold baseline actions = fold baseline actions ∧
    fold baseline (actions ++ rest) = fold (fold baseline actions) rest := by
  refine ⟨rfl, ?_⟩
  simp [fold, List.foldl_append]

/-- Concrete records used in closed statements and witnesses. -/
def tA : Todo := { id := "a", text := "A", completed := false, createdAt := 1, updatedAt := 1 }

def tB : Todo := { id := "b", text := "B", completed := false, createdAt := 2, updatedAt := 2 }

def tC : Todo := { id := "c", text := "C", completed := true, createdAt := 3, updatedAt := 3 }

def tU : Todo := { id := "z", text := "Z", completed := true, createdAt := 9, updatedAt := 9 }

/-- `C1` — Add round-trip: from the empty baseline, dispatching the optimistic
Add of the fabricated temp record makes the visible collection exactly that
single record, whose text is the dispatched text, whose `completed` is false
and whose id is the temporary `temp-${now}` id; folding the success
confirmation (`ADD_COMPLETED` with the canonical record) yields exactly the
one-element canonical list, with no duplicate and no temp leftover; folding
the failure compensation (`DELETE` of the temp record) returns the visible
collection to the empty baseline. -/
theorem add_round_trip (now : Nat) (t : String) (c : Todo)
    (h1 : jsTrim t = t) (h2 : t ≠ "") :
    fold [] [.add (mkTempTodo now t)] = [mkTempTodo now t] ∧
    (mkTempTodo now t).text = t ∧
    (mkTempTodo now t).text ≠ "" ∧
    (mkTempTodo now t).completed = false ∧
    (mkTempTodo now t).id = "temp-" ++ toString now ∧
    fold [] [.add (mkTempTodo now t), .add_completed (mkTempTodo now t) c] = [c] ∧
    fold [] [.add (mkTempTodo now t), .delete (mkTempTodo now t)] = [] := by
  refine ⟨rfl, ?_, ?_, rfl, rfl, ?_, ?_⟩
  · simp [mkTempTodo, h1]
  · simp [mkTempTodo, h1, h2]
  · simp [fold, optimisticReducer]
  · simp [fold, optimisticReducer]

theorem add_round_trip_witness :
    (jsTrim "buy milk" = "buy milk" ∧ "buy milk" ≠ "") ∧
    fold [] [.add (mkTempTodo 1700000000000 "buy milk"),
             .add_completed (mkTempTodo 1700000000000 "buy milk") tC] = [tC] :=
  ⟨⟨by decide, by decide⟩,
   (add_round_trip 1700000000000 "buy milk" tC (by decide) (by decide)).2.2.2.2.2.1⟩

/-- `C2` — Delete rollback at the failing input: on baseline `[A, B, C]` the
optimistic Delete of `B` immediately yields `[A, C]`, but folding the
compensating `DELETE_ERROR { index := 1, todo := B }` yields `[A, B]` — the
reducer overwrites the record now occupying index 1 (`C`) instead of
re-inserting `B`, so the collection is NOT restored to `[A, B, C]`; the
`TodosContainer` splice-based rollback at the same input does restore it. -/
theorem delete_rollback_bug :
    optimisticReducer [tA, tB, tC] (.delete tB) = [tA, tC] ∧
    fold [tA, tB, tC] [.delete tB, .delete_error 1 tB] = [tA, tB] ∧
    fold [tA, tB, tC] [.delete tB, .delete_error 1 tB] ≠ [tA, tB, tC] ∧
    spliceRestore [tA, tC] 1 tB = [tA, tB, tC] := by
  decide

/-- `C4` — Update on a vanished id is a safe no-op: if no record of the
visible collection carries the target id, the `UPDATE` case of the reducer
returns the collection unchanged (being a total function, it cannot throw). -/
theorem update_vanished_noop (state : List Todo) (u : Todo)
    (h : ∀ t ∈ state, t.id ≠ u.id) :
    optimisticReducer state (.update u) = state := by
  induction state with
  | nil => rfl
  | cons x xs ih =>
    have hx : x.id ≠ u.id := h x (List.mem_cons_self x xs)
    have hxs : ∀ t ∈ xs, t.id ≠ u.id := fun t ht => h t (List.mem_cons_of_mem x ht)
    simp only [optimisticReducer, List.map_cons] at ih ⊢
    rw [if_neg hx]
    exact congrArg (x :: ·) (ih hxs)

theorem update_vanished_noop_witness :
    (∀ t ∈ [tA], t.id ≠ tU.id) ∧ optimisticReducer [tA] (.update tU) = [tA] :=
  ⟨by decide, update_vanished_noop [tA] tU (by decide)⟩

/-- `C5` — Update frame property: the `UPDATE` case keeps the collection's
length and order, replaces the record at every position whose id matches the
action's record with that record, and leaves every position with a different
id unchanged; the `toggleTodo` optimistic map likewise preserves length and
order and merges only the `completed` field into the matching record,
leaving `id`, `text` and `createdAt` of every record intact. -/
theorem update_frame (state : List Todo) (u : Todo) (i : Nat) (id0 : String) :
    (optimisticReducer state (.update u)).length = state.length ∧
    (optimisticReducer state (.update u))[i]? =
      (state[i]?).map (fun t => if t.id = u.id then u else t) ∧
    (toggleOptimistic id0 state).length = state.length ∧
    (toggleOptimistic id0 state)[i]? =
      (state[i]?).map (fun t => if t.id = id0 then { t with completed := !t.completed } else t) ∧
    (∀ t : Todo,
      ((if t.id = id0 then { t with completed := !t.completed } else t) : Todo).id = t.id ∧
      ((if t.id = id0 then { t with completed := !t.completed } else t) : Todo).text = t.text ∧
      ((if t.id = id0 then { t with completed := !t.completed } else t) : Todo).createdAt = t.createdAt) := by
  refine ⟨by simp [optimisticReducer], ?_, by simp [toggleOptimistic], ?_, ?_⟩
  · simp [optimisticReducer, List.getElem?_map]
  · simp [toggleOptimistic, List.getElem?_map]
  · intro t
    by_cases ht : t.id = id0 <;> simp [ht]

/-- A hexadecimal digit, as accepted by the UUID format. -/
def isHexChar (c : Char) : Bool :=
  c.isDigit || ('a' ≤ c && c ≤ 'f') || ('A' ≤ c && c ≤ 'F')

/-- The canonical-id format of the shared schema (`id: z.uuid()` in
`TodoSchema`): 36 characters, hyphens at positions 8, 13, 18 and 23, hex
digits everywhere else. This is the 8-4-4-4-12 shape; the library's check
only tightens it (version and variant nibbles), so every canonical id also
satisfies this predicate. -/
def isUuid (s : String) : Bool :=
  (s.data.length == 36) &&
    ((List.range 36).all fun i =>
      if i == 8 || i == 13 || i == 18 || i == 23 then s.data.getD i ' ' == '-'
      else isHexChar (s.data.getD i ' '))

/-- A UUID-format string starts with a hex digit. -/
theorem isUuid_head_hex (s : String) (h : isUuid s = true) :
    isHexChar (s.data.getD 0 ' ') = true := by
  unfold isUuid at h
  rw [Bool.and_eq_true, List.all_eq_true] at h
  have h0 := h.2 0 (by decide)
  simpa using h0

/-- `C6` (amended) — Temporary-id discipline of `addTodo`: a temporary id
`temp-${Date.now()}` never equals any canonical UUID-format id; two Adds
dispatched before either confirms put two independent temporary records in
the visible collection; but the two temporary ids coincide whenever the
two dispatches read the same `Date.now()` millisecond. -/
theorem temp_id_discipline (now n : Nat) (t t1 t2 : String) (c : Todo)
    (h : isUuid c.id = true) :
    (mkTempTodo now t).id ≠ c.id ∧
    (mkTempTodo n t1).id = (mkTempTodo n t2).id ∧
    fold [] [.add (mkTempTodo now t1), .add (mkTempTodo n t2)] =
      [mkTempTodo now t1, mkTempTodo n t2] := by
  refine ⟨?_, rfl, by simp [fold, optimisticReducer]⟩
  intro heq
  have h' : isUuid (mkTempTodo now t).id = true := heq ▸ h
  have hh := isUuid_head_hex _ h'
  have hd : (mkTempTodo now t).id.data.getD 0 ' ' = 't' := rfl
  rw [hd] at hh
  exact absurd hh (by decide)

theorem temp_id_discipline_witness :
    isUuid "123e4567-e89b-12d3-a456-426614174000" = true ∧
    (mkTempTodo 1 "x").id ≠ "123e4567-e89b-12d3-a456-426614174000" :=
  ⟨by decide,
   (temp_id_discipline 1 2 "x" "x" "y"
      { id := "123e4567-e89b-12d3-a456-426614174000", text := "T",
        completed := false, createdAt := 0, updatedAt := 0 }
      (by decide)).1⟩

/-- `C6` counterexample — two optimistic Adds dispatched in the same
millisecond (`Date.now()` equal) produce two distinct temporary records that
share one and the same id, refuting that the temporary ids of every pair of
Adds differ from each other. -/
theorem temp_id_collision :
    (mkTempTodo 1700000000000 "buy milk").id = (mkTempTodo 1700000000000 "walk dog").id ∧
    mkTempTodo 1700000000000 "buy milk" ≠ mkTempTodo 1700000000000 "walk dog" := by
  constructor
  · rfl
  · intro h
    have := congrArg Todo.text h
    simp [mkTempTodo, jsTrim] at this

/-- An HTTP response: status code and body text. -/
structure HttpResponse where
  status : Nat
  body : String
deriving DecidableEq

/-- The `Response.ok` predicate of the fetch API: status in the range
200–299. -/
def responseOk (r : HttpResponse) : Bool :=
  200 ≤ r.status && r.status < 300

/-- Model of `response.json()` (`JSON.parse` on the body text) at the
precision the delete path exercises: an empty body is not valid JSON and
rejects; a non-empty body is returned as the parsed payload. -/
def jsonBody? (s : String) : Option String :=
  if s.isEmpty then none else some s

/-- The create/update payload field selection of the todo service
(`Partial<Pick<TodoTable, 'text' | 'completed'>>`): each field either
absent (`undefined`) or present. -/
structure UpdateData where
  text : Option String
  completed : Option Bool
deriving DecidableEq

/-- The POST /todos request body (`CreateTodoSchema`): `text` and an
optional `completed` defaulting to `false`. -/
structure CreatePayload where
  text : String
  completed : Option Bool
deriving DecidableEq

instance : IsTotal Todo (fun a b => a.createdAt ≤ b.createdAt) :=
  ⟨fun a b => Nat.le_total a.createdAt b.createdAt⟩

instance : IsTrans Todo (fun a b => a.createdAt ≤ b.createdAt) :=
  ⟨fun _ _ _ => Nat.le_trans⟩

namespace TodoService

/-- `getTodos` of the todo service: `SELECT ... FROM todos ORDER BY
created_at ASC`, the table modelled as a list of rows and the SQL ordering
as a sort on `createdAt`. -/
def getTodos (store : List Todo) : List Todo :=
  List.insertionSort (fun a b => a.createdAt ≤ b.createdAt) store

/-- `createTodo` of the todo service: `INSERT INTO todos (text, completed)
... RETURNING ...` — the database assigns the fresh uuid `newId` and the
`NOW()` timestamps. -/
def createTodo (store : List Todo) (newId : String) (now : Nat)
    (text : String) (completed : Bool) : Todo × List Todo :=
  let todo : Todo :=
    { id := newId, text := text, completed := completed, createdAt := now, updatedAt := now }
  (todo, store ++ [todo])

/-- `deleteTodo` of the todo service: `DELETE FROM todos WHERE id = ${id}`;
a row count of zero raises `NotFoundError`. -/
def deleteTodo (store : List Todo) (id : String) : Except String (List Todo) :=
  if store.any (fun t => t.id == id) then .ok (store.filter (fun t => t.id != id))
  else .error ("Todo with id " ++ id ++ " not found")

/-- `updateTodo` of the todo service: collects the defined fields of `data`
into the SET clause; with no defined field it throws `No fields to update`
before any database write; otherwise it updates the matching row (also
setting `updated_at = NOW()`) and returns the RETURNING row, `none` when no
row matched. The table travels alongside the result to record writes. -/
def updateTodo (store : List Todo) (now : Nat) (id : String) (data : UpdateData) :
    Except String (Option Todo) × List Todo :=
  match data.text, data.completed with
  | none, none => (.error "No fields to update", store)
  | _, _ =>
    let upd := fun (t : Todo) =>
      { t with text := data.text.getD t.text,
               completed := data.completed.getD t.completed,
               updatedAt := now }
    ((.ok ((store.find? (fun t => t.id == id)).map upd)),
     store.map (fun t => if t.id = id then upd t else t))

end TodoService

/-- The DELETE /todos/:id route handler: calls the service; a `not found`
error is answered with 404 and `{message}`; success is answered with 204
and an empty body. -/
def deleteRoute (store : List Todo) (id : String) : HttpResponse × List Todo :=
  match TodoService.deleteTodo store id with
  | .ok store' => ({ status := 204, body := "" }, store')
  | .error _ =>
      ({ status := 404,
         body := "\x7b\"message\":\"Todo with id " ++ id ++ " not found\"\x7d" }, store)

/-- `CreateTodoSchema` validation: `text` a string of 1 to 500 characters,
`completed` an optional boolean defaulting to `false`. -/
def validateCreateTodo (p : CreatePayload) : Option (String × Bool) :=
  if 1 ≤ p.text.length ∧ p.text.length ≤ 500 then some (p.text, p.completed.getD false)
  else none

/-- The POST /todos route: a body failing `CreateTodoSchema` is answered
400 by the validation layer and the handler never runs (nothing inserted);
a valid body reaches the handler, which inserts and replies 201. Response
bodies other than status are not inspected by any claim and are left
empty/plain. -/
def createRoute (store : List Todo) (newId : String) (now : Nat) (p : CreatePayload) :
    HttpResponse × List Todo :=
  match validateCreateTodo p with
  | none => ({ status := 400, body := "Bad Request" }, store)
  | some (text, completed) =>
      ({ status := 201, body := "" }, (TodoService.createTodo store newId now text completed).2)

namespace ClientApi

/-- `deleteTodo` of `api/todos/index.ts` (the `Promise<Todo>` variant cited
by the spec): throws `Failed to delete todo` when `response.ok` is false,
otherwise evaluates `await response.json()` on the response body. -/
def deleteTodo (r : HttpResponse) : Except String String :=
  if !(responseOk r) then .error "Failed to delete todo"
  else
    match jsonBody? r.body with
    | some v => .ok v
    | none => .error "Unexpected end of JSON input"

end ClientApi

/-- `C7` — Delete contract at a concrete store: deleting an existing id
makes the server answer 204 with an empty body and remove the row, and a
missing id is answered 404; but the client `deleteTodo`, fed the successful
204 response, evaluates `response.json()` on the empty body and therefore
throws instead of resolving with no value. -/
theorem delete_success_throws :
    (deleteRoute [tA] "a").1 = { status := 204, body := "" } ∧
    (deleteRoute [tA] "a").2 = [] ∧
    ClientApi.deleteTodo (deleteRoute [tA] "a").1 = .error "Unexpected end of JSON input" ∧
    (deleteRoute [tA] "zzz").1.status = 404 ∧
    ClientApi.deleteTodo (deleteRoute [tA] "zzz").1 = .error "Failed to delete todo" := by
  refine ⟨rfl, rfl, rfl, rfl, rfl⟩

/-- `C8` — Text validation bounds: `CreateTodoSchema` accepts a create
payload exactly when its text has between 1 and 500 characters; a payload
with empty or over-long text is answered 400 with the store unchanged (no
todo created); a valid payload is answered 201 with exactly the new record
appended. -/
theorem create_text_validation (store : List Todo) (newId : String) (now : Nat)
    (p : CreatePayload) :
    ((validateCreateTodo p).isSome = true ↔ 1 ≤ p.text.length ∧ p.text.length ≤ 500) ∧
    (p.text.length = 0 ∨ p.text.length > 500 →
      (createRoute store newId now p).1.status = 400 ∧
      (createRoute store newId now p).2 = store) ∧
    (1 ≤ p.text.length ∧ p.text.length ≤ 500 →
      (createRoute store newId now p).1.status = 201 ∧
      (createRoute store newId now p).2 =
        store ++ [{ id := newId, text := p.text, completed := p.completed.getD false,
                    createdAt := now, updatedAt := now }]) := by
  refine ⟨?_, ?_, ?_⟩
  · by_cases hc : 1 ≤ p.text.length ∧ p.text.length ≤ 500 <;>
      simp [validateCreateTodo, hc]
  · intro hbad
    have hc : ¬(1 ≤ p.text.length ∧ p.text.length ≤ 500) := by omega
    constructor <;> simp [createRoute, validateCreateTodo, hc]
  · intro hgood
    constructor <;> simp [createRoute, validateCreateTodo, hgood, TodoService.createTodo]

theorem create_text_validation_witness :
    (("" : String).length = 0 ∨ ("" : String).length > 500) ∧
    (createRoute [] "u1" 5 ⟨"", none⟩).1.status = 400 ∧
    (createRoute [] "u1" 5 ⟨"", none⟩).2 = [] ∧
    (1 ≤ ("hi" : String).length ∧ ("hi" : String).length ≤ 500) ∧
    (createRoute [] "u1" 5 ⟨"hi", none⟩).1.status = 201 :=
  ⟨Or.inl rfl,
   ((create_text_validation [] "u1" 5 ⟨"", none⟩).2.1 (Or.inl rfl)).1,
   ((create_text_validation [] "u1" 5 ⟨"", none⟩).2.1 (Or.inl rfl)).2,
   ⟨by decide, by decide⟩,
   ((create_text_validation [] "u1" 5 ⟨"hi", none⟩).2.2 ⟨by decide, by decide⟩).1⟩

/-- `C9` — Canonical list ordering: the server list operation returns the
rows sorted ascending by `createdAt` — every pair of adjacent records is
ordered — and is a permutation of the stored table (no row invented or
dropped by the ordering). -/
theorem get_todos_sorted (store : List Todo) :
    List.Chain' (fun a b => a.createdAt ≤ b.createdAt) (TodoService.getTodos store) ∧
    (TodoService.getTodos store).Perm store := by
  constructor
  · exact List.Pairwise.chain'
      (List.sorted_insertionSort (fun (a b : Todo) => a.createdAt ≤ b.createdAt) store)
  · exact List.perm_insertionSort (fun (a b : Todo) => a.createdAt ≤ b.createdAt) store

/-- `C10` — Empty update rejected: calling the service `updateTodo` with a
data object in which neither `text` nor `completed` is defined throws
`No fields to update` before any database write, leaving the stored
collection exactly as it was. -/
theorem empty_update_rejected (store : List Todo) (now : Nat) (id : String) :
    TodoService.updateTodo store now id { text := none, completed := none } =
      (.error "No fields to update", store) :=
  rfl
